import Mathlib

/-
Verification of the orchestration layer in
`src/circuit-helper/src/circuits/common.rs` (trait `CircuitHelper`):
artifact caching (`setup_required`, `setup`), local proving (`prove_local`),
distributed proving (`prove`) and verification (`verify`).

The external cryptographic engine (halo2: `ParamsKZG::setup`, `keygen_vk`,
`keygen_pk`, `create_proof`, `verify_proof`, the Blake2b transcripts and the
seeded `XorShiftRng`) is out of scope of the repository and is modelled as a
record of abstract functions, one per capability the source invokes; each is
a pure function of exactly the arguments the source passes, which is the
black-box contract the spec assigns to it.  The Artifact Store (the
repository's `artifacts` module, not among the given sources) is modelled
from the spec as a keyed map with existence checks, reads failing when the
key is absent, and unconditional overwriting writes.  Every operation
returns the ordered list of write events it performs, so that "performs no
write" is directly observable; the resulting store is obtained by folding
the events over the initial store.

The `unwrap()` calls on the engine's key generation inside `setup` panic in
Rust; the panic is modelled as exceptional termination carrying the engine
error (the `Except.error` outcome), which performs no writes and is not
retried.
-/

namespace Zkevm

/-- The abstract types of the external engine: errors, parameters, keys,
circuits, randomness, transcripts, proof bytes, the two distributed-proving
configurations and the field element type of public inputs. -/
structure Ty where
  Err : Type
  Params : Type
  VK : Type
  PK : Type
  Circuit : Type
  Rng : Type
  Transcript : Type
  Bytes : Type
  NetCfg : Type
  WlCfg : Type
  Fr : Type

/-- `SingleStrategy::new(&general_params)`: the single-proof acceptance
policy, built from a `Params` value. -/
structure SingleStrategy (P : Type) where
  ofParams : P

/-- `Blake2bRead::init(&proof[..])`: an incoming transcript reconstructed
from stored proof bytes. -/
structure ReadTranscript (B : Type) where
  ofBytes : B

/-- The external cryptographic engine, one field per capability the source
invokes, each taking exactly the arguments the source passes. -/
structure Engine (t : Ty) where
  fromSeed : List Nat → t.Rng
  paramsSetup : Nat → t.Rng → t.Params
  verifierParams : t.Params → t.Params
  keygenVk : t.Params → t.Circuit → Except t.Err t.VK
  keygenPk : t.Params → t.VK → t.Circuit → Except t.Err t.PK
  transcriptInit : t.Transcript
  createProofLocal : t.Params → t.PK → List t.Circuit → List (List (List t.Fr)) →
    t.Rng → t.Transcript → t.Transcript × Except t.Err Unit
  createProofDistributed : t.Params → t.PK → List t.Circuit → List (List (List t.Fr)) →
    t.Rng → t.Transcript → t.NetCfg → t.WlCfg → Nat → t.Transcript × Except t.Err Unit
  finalize : t.Transcript → t.Bytes
  verifyProof : t.Params → t.VK → SingleStrategy t.Params → List (List (List t.Fr)) →
    ReadTranscript t.Bytes → Except t.Err Unit

/-- One implementor of the `CircuitHelper` trait: its associated constants
`NAME`, `DEGREE`, `RNG_SEED`, the circuit instance `circuit()` returns, and
the two distributed-proving configurations (supplied via configuration per
the spec, read per circuit family). -/
structure CircuitHelper (t : Ty) where
  NAME : String
  DEGREE : Nat
  RNG_SEED : List Nat
  circuit : t.Circuit
  networkConfig : t.NetCfg
  workloadConfig : t.WlCfg

/-- Modelled from the spec: the Artifact Store (the repository's `artifacts`
module is not among the given sources) — keyed persistence for parameters
(keyed by degree and verifier-variant flag), verifying keys, proving keys
and proofs (keyed by name). -/
structure Store (t : Ty) where
  paramsKzg : Nat → Bool → Option t.Params
  vks : String → Option t.VK
  pks : String → Option t.PK
  proofs : String → Option t.Bytes

/-- Modelled from the spec: `params_kzg_exists(degree, verifier)`. -/
def params_kzg_exists {t : Ty} (s : Store t) (degree : Nat) (verifier : Bool) : Bool :=
  (s.paramsKzg degree verifier).isSome

/-- Modelled from the spec: `vk_exists(name)`. -/
def vk_exists {t : Ty} (s : Store t) (name : String) : Bool :=
  (s.vks name).isSome

/-- Modelled from the spec: `pk_exists(name)`. -/
def pk_exists {t : Ty} (s : Store t) (name : String) : Bool :=
  (s.pks name).isSome

/-- One write to the Artifact Store, in the order the source performs it. -/
inductive WriteEvent (t : Ty) where
  | paramsKzg (degree : Nat) (verifier : Bool) (p : t.Params)
  | vk (name : String) (v : t.VK)
  | pk (name : String) (p : t.PK)
  | proof (name : String) (b : t.Bytes)

/-- Modelled from the spec: a write overwrites unconditionally (last writer
wins). -/
def applyWrite {t : Ty} (s : Store t) : WriteEvent t → Store t
  | .paramsKzg d v p =>
      { s with paramsKzg := fun d' v' => if d' = d ∧ v' = v then some p else s.paramsKzg d' v' }
  | .vk n v => { s with vks := fun n' => if n' = n then some v else s.vks n' }
  | .pk n p => { s with pks := fun n' => if n' = n then some p else s.pks n' }
  | .proof n b => { s with proofs := fun n' => if n' = n then some b else s.proofs n' }

/-- The store after a sequence of writes. -/
def applyTrace {t : Ty} (s : Store t) (tr : List (WriteEvent t)) : Store t :=
  tr.foldl applyWrite s

/-- Failure outcomes of an operation: a required cached artifact is absent
(`missingArtifact`, the spec's error for a failed read), or the external
engine reported an error (propagated verbatim). -/
inductive PError (Err : Type) where
  | missingArtifact
  | engine (e : Err)

/-- `CircuitHelper::setup_required`: true when any of the four setup
artifacts for `(NAME, DEGREE)` is missing. -/
def setup_required {t : Ty} (H : CircuitHelper t) (s : Store t) : Bool :=
  !params_kzg_exists s H.DEGREE false ||
  !params_kzg_exists s H.DEGREE true ||
  !vk_exists s H.NAME ||
  !pk_exists s H.NAME

/-- `CircuitHelper::setup`: if `setup_required`, seed the RNG with
`RNG_SEED`, generate the general parameters at `DEGREE`, project the
verifier parameters, generate the verifying key then (from that same key)
the proving key, and persist all four; otherwise do nothing.  The source's
`unwrap()` on a failed key generation is modelled as exceptional
termination carrying the engine error, with no writes performed. -/
def setup {t : Ty} (E : Engine t) (H : CircuitHelper t) (s : Store t) :
    List (WriteEvent t) × Except t.Err Unit :=
  if setup_required H s then
    let rng := E.fromSeed H.RNG_SEED
    let general_params := E.paramsSetup H.DEGREE rng
    let verifier_params := E.verifierParams general_params
    match E.keygenVk general_params H.circuit with
    | .error e => ([], .error e)
    | .ok vk =>
      match E.keygenPk general_params vk H.circuit with
      | .error e => ([], .error e)
      | .ok pk =>
        ([.paramsKzg H.DEGREE false general_params,
          .paramsKzg H.DEGREE true verifier_params,
          .vk H.NAME vk,
          .pk H.NAME pk], .ok ())
  else ([], .ok ())

/-- `CircuitHelper::prove_local`: read the general parameters and the
proving key (failing with `missingArtifact` when absent, per the spec's
Artifact Store contract), invoke the engine's single-process proving call
on a fresh seeded RNG and an empty transcript, then finalize the transcript
and write it as the Proof artifact — the write is not gated on the engine
call's result — and return the engine's result. -/
def prove_local {t : Ty} (E : Engine t) (H : CircuitHelper t) (s : Store t) :
    List (WriteEvent t) × Except (PError t.Err) Unit :=
  match s.paramsKzg H.DEGREE false with
  | none => ([], .error .missingArtifact)
  | some general_params =>
    match s.pks H.NAME with
    | none => ([], .error .missingArtifact)
    | some pk =>
      let call := E.createProofLocal general_params pk [H.circuit] [[]]
        (E.fromSeed H.RNG_SEED) E.transcriptInit
      ([.proof H.NAME (E.finalize call.1)], call.2.mapError PError.engine)

/-- `CircuitHelper::prove`: read the general parameters and the proving key
(failing with `missingArtifact` when absent), invoke the engine's
distributed proving call with the network and workload configurations and
this prover's index, and — only when `prover_index == 0` — finalize the
transcript and write it as the Proof artifact (not gated on the engine
call's result); return the engine's result. -/
def prove {t : Ty} (E : Engine t) (H : CircuitHelper t) (prover_index : Nat) (s : Store t) :
    List (WriteEvent t) × Except (PError t.Err) Unit :=
  match s.paramsKzg H.DEGREE false with
  | none => ([], .error .missingArtifact)
  | some general_params =>
    match s.pks H.NAME with
    | none => ([], .error .missingArtifact)
    | some pk =>
      let call := E.createProofDistributed general_params pk [H.circuit] [[]]
        (E.fromSeed H.RNG_SEED) E.transcriptInit H.networkConfig H.workloadConfig prover_index
      ((if prover_index = 0 then [WriteEvent.proof H.NAME (E.finalize call.1)] else []),
       call.2.mapError PError.engine)

/-- `CircuitHelper::verify`: read the general parameters, the verifier
parameters, the verifying key and the stored proof (failing with
`missingArtifact` when absent), rebuild an incoming transcript from the
proof bytes, build a `SingleStrategy` from the general parameters, and
return the engine's verification result unchanged on the verifier
parameters, the verifying key, that strategy, the empty public-input set
and that transcript. -/
def verify {t : Ty} (E : Engine t) (H : CircuitHelper t) (s : Store t) :
    Except (PError t.Err) Unit :=
  match s.paramsKzg H.DEGREE false with
  | none => .error .missingArtifact
  | some general_params =>
    match s.paramsKzg H.DEGREE true with
    | none => .error .missingArtifact
    | some verifier_params =>
      match s.vks H.NAME with
      | none => .error .missingArtifact
      | some vk =>
        match s.proofs H.NAME with
        | none => .error .missingArtifact
        | some proof =>
          (E.verifyProof verifier_params vk ⟨general_params⟩ [[]] ⟨proof⟩).mapError PError.engine

/-! Concrete instantiations used to evaluate the model on explicit inputs. -/

/-- A concrete assignment of the engine types. -/
abbrev tyN : Ty where
  Err := Unit
  Params := Nat
  VK := Nat
  PK := Nat
  Circuit := Unit
  Rng := Nat
  Transcript := Nat
  Bytes := Nat
  NetCfg := Unit
  WlCfg := Unit
  Fr := Unit

/-- A concrete engine whose calls all succeed. -/
def okEngine : Engine tyN where
  fromSeed := fun _ => 0
  paramsSetup := fun d _ => d + 2
  verifierParams := fun p => p + 1
  keygenVk := fun _ _ => .ok 7
  keygenPk := fun _ _ _ => .ok 8
  transcriptInit := 0
  createProofLocal := fun p pk _ _ r tr => (tr + p + pk + r + 1, .ok ())
  createProofDistributed := fun p pk _ _ r tr _ _ i => (tr + p + pk + r + i + 2, .ok ())
  finalize := fun tr => tr
  verifyProof := fun _ _ _ _ _ => .ok ()

/-- A concrete engine whose key-generation and proving calls fail, still
recording its transcript progress before failing. -/
def errEngine : Engine tyN where
  fromSeed := fun _ => 0
  paramsSetup := fun d _ => d + 2
  verifierParams := fun p => p + 1
  keygenVk := fun _ _ => .error ()
  keygenPk := fun _ _ _ => .error ()
  transcriptInit := 0
  createProofLocal := fun _ _ _ _ _ tr => (tr + 1, .error ())
  createProofDistributed := fun _ _ _ _ _ tr _ _ _ => (tr + 1, .error ())
  finalize := fun tr => tr
  verifyProof := fun _ _ _ _ _ => .error ()

/-- A concrete circuit helper. -/
def hN : CircuitHelper tyN where
  NAME := "c"
  DEGREE := 3
  RNG_SEED := List.replicate 16 0
  circuit := ()
  networkConfig := ()
  workloadConfig := ()

/-- A store holding no artifact at all. -/
def emptyStoreN : Store tyN where
  paramsKzg := fun _ _ => none
  vks := fun _ => none
  pks := fun _ => none
  proofs := fun _ => none

/-- A store holding the four setup artifacts for `hN` but no proof. -/
def readyStoreN : Store tyN where
  paramsKzg := fun d v => if d = 3 then (if v then some 6 else some 5) else none
  vks := fun n => if n = "c" then some 7 else none
  pks := fun n => if n = "c" then some 8 else none
  proofs := fun _ => none

/-- `readyStoreN` with a stored proof as well. -/
def fullStoreN : Store tyN where
  paramsKzg := readyStoreN.paramsKzg
  vks := readyStoreN.vks
  pks := readyStoreN.pks
  proofs := fun n => if n = "c" then some 9 else none

/-- A store holding only the verifying key. -/
def vkOnlyStoreN : Store tyN where
  paramsKzg := fun _ _ => none
  vks := fun n => if n = "c" then some 7 else none
  pks := fun _ => none
  proofs := fun _ => none

/-- The store left behind by one `prove_local` run on `readyStoreN`. -/
def proveTwiceStoreN : Store tyN :=
  applyTrace readyStoreN (prove_local okEngine hN readyStoreN).1

/-! Claims. -/

/-- Claim C5: `setup_required` returns true exactly when at least one of the
four artifacts — prover parameters for DEGREE, verifier parameters for
DEGREE, verifying key for NAME, proving key for NAME — is absent from the
Artifact Store, and false exactly when all four are present. -/
theorem setup_required_iff {t : Ty} (H : CircuitHelper t) (s : Store t) :
    (setup_required H s = true ↔
      (s.paramsKzg H.DEGREE false = none ∨ s.paramsKzg H.DEGREE true = none ∨
       s.vks H.NAME = none ∨ s.pks H.NAME = none)) ∧
    (setup_required H s = false ↔
      ((s.paramsKzg H.DEGREE false).isSome ∧ (s.paramsKzg H.DEGREE true).isSome ∧
       (s.vks H.NAME).isSome ∧ (s.pks H.NAME).isSome)) := by
  cases h1 : s.paramsKzg H.DEGREE false <;> cases h2 : s.paramsKzg H.DEGREE true <;>
    cases h3 : s.vks H.NAME <;> cases h4 : s.pks H.NAME <;>
      simp [setup_required, params_kzg_exists, vk_exists, pk_exists, h1, h2, h3, h4]

/-- Claim C4: when all four setup artifacts for (NAME, DEGREE) are already
present, `setup` performs zero writes, leaves every stored artifact
unchanged and succeeds; consequently a second `setup` call immediately
after a successful first is a no-op. -/
theorem setup_noop_when_cached {t : Ty} (E : Engine t) (H : CircuitHelper t) (s : Store t)
    (h1 : params_kzg_exists s H.DEGREE false = true)
    (h2 : params_kzg_exists s H.DEGREE true = true)
    (h3 : vk_exists s H.NAME = true)
    (h4 : pk_exists s H.NAME = true) :
    setup E H s = ([], Except.ok ()) ∧ applyTrace s (setup E H s).1 = s ∧
    ∀ (s0 : Store t) (tr : List (WriteEvent t)),
      setup E H s0 = (tr, Except.ok ()) → setup E H (applyTrace s0 tr) = ([], Except.ok ()) := by
  have hreq : setup_required H s = false := by
    simp [setup_required, h1, h2, h3, h4]
  refine ⟨by simp [setup, hreq], by simp [setup, hreq, applyTrace], ?_⟩
  intro s0 tr h
  cases hr : setup_required H s0 with
  | false =>
    simp only [setup, hr, Bool.false_eq_true, if_false] at h
    have htr : tr = [] := (Prod.ext_iff.mp h.symm).1
    subst htr
    simp [setup, hr, applyTrace]
  | true =>
    simp only [setup, hr, if_true] at h
    cases hvk : E.keygenVk (E.paramsSetup H.DEGREE (E.fromSeed H.RNG_SEED)) H.circuit with
    | error e => rw [hvk] at h; simp at h
    | ok vk =>
      rw [hvk] at h
      dsimp only at h
      cases hpk : E.keygenPk (E.paramsSetup H.DEGREE (E.fromSeed H.RNG_SEED)) vk H.circuit with
      | error e => rw [hpk] at h; simp at h
      | ok pk =>
        rw [hpk] at h
        dsimp only at h
        have htr : tr = [WriteEvent.paramsKzg H.DEGREE false
            (E.paramsSetup H.DEGREE (E.fromSeed H.RNG_SEED)),
          WriteEvent.paramsKzg H.DEGREE true
            (E.verifierParams (E.paramsSetup H.DEGREE (E.fromSeed H.RNG_SEED))),
          WriteEvent.vk H.NAME vk, WriteEvent.pk H.NAME pk] := (Prod.ext_iff.mp h.symm).1
        subst htr
        have hreq' : setup_required H (applyTrace s0
            [WriteEvent.paramsKzg H.DEGREE false
              (E.paramsSetup H.DEGREE (E.fromSeed H.RNG_SEED)),
             WriteEvent.paramsKzg H.DEGREE true
              (E.verifierParams (E.paramsSetup H.DEGREE (E.fromSeed H.RNG_SEED))),
             WriteEvent.vk H.NAME vk, WriteEvent.pk H.NAME pk]) = false := by
          simp [applyTrace, applyWrite, setup_required,
            params_kzg_exists, vk_exists, pk_exists]
        simp [setup, hreq']

/-- Witness for claim C4 at a concrete store holding all four setup
artifacts. -/
theorem setup_noop_when_cached_witness :
    setup okEngine hN readyStoreN = ([], Except.ok ()) ∧
    applyTrace readyStoreN (setup okEngine hN readyStoreN).1 = readyStoreN ∧
    ∀ (s0 : Store tyN) (tr : List (WriteEvent tyN)),
      setup okEngine hN s0 = (tr, Except.ok ()) →
      setup okEngine hN (applyTrace s0 tr) = ([], Except.ok ()) :=
  setup_noop_when_cached okEngine hN readyStoreN rfl rfl rfl rfl

/-- Claim C1, counterexample: at a concrete engine whose single-process
proving call fails, `prove_local` nevertheless writes a Proof artifact —
the store's proof entry changes from absent to present — refuting "never
writes on failure". -/
theorem prove_local_writes_on_failure_cex :
    (prove_local errEngine hN readyStoreN).2 = Except.error (PError.engine ()) ∧
    readyStoreN.proofs "c" = none ∧
    (applyTrace readyStoreN (prove_local errEngine hN readyStoreN).1).proofs "c" = some 1 := by
  refine ⟨rfl, rfl, ?_⟩
  simp [prove_local, applyTrace, applyWrite, errEngine, hN, readyStoreN]

/-- Claim C1 (amended): when the general parameters and proving key are
present, `prove_local` finalizes the transcript and writes it as the Proof
artifact unconditionally — on engine success and on engine failure alike —
and returns the engine call's result. -/
theorem prove_local_write_unconditional {t : Ty} (E : Engine t) (H : CircuitHelper t)
    (s : Store t) (gp : t.Params) (pk : t.PK)
    (h1 : s.paramsKzg H.DEGREE false = some gp) (h2 : s.pks H.NAME = some pk) :
    prove_local E H s =
      ([WriteEvent.proof H.NAME (E.finalize
          (E.createProofLocal gp pk [H.circuit] [[]] (E.fromSeed H.RNG_SEED) E.transcriptInit).1)],
       (E.createProofLocal gp pk [H.circuit] [[]] (E.fromSeed H.RNG_SEED)
          E.transcriptInit).2.mapError PError.engine) := by
  simp [prove_local, h1, h2]

/-- Witness for the amended claim C1, at the failing concrete engine. -/
theorem prove_local_write_unconditional_witness :
    prove_local errEngine hN readyStoreN =
      ([WriteEvent.proof "c" 1], Except.error (PError.engine ())) := by
  have h := prove_local_write_unconditional errEngine hN readyStoreN 5 8 rfl rfl
  simpa [errEngine, hN, Except.mapError] using h

/-- Claim C2, counterexample: at a concrete engine whose distributed proving
call returns an error to the leader (prover index 0), `prove` surfaces the
error but still writes a Proof artifact — the proof entry changes —
refuting "no artifact written on a Failed outcome". -/
theorem prove_leader_writes_on_failure_cex :
    (prove errEngine hN 0 readyStoreN).2 = Except.error (PError.engine ()) ∧
    readyStoreN.proofs "c" = none ∧
    (applyTrace readyStoreN (prove errEngine hN 0 readyStoreN).1).proofs "c" = some 1 := by
  refine ⟨rfl, rfl, ?_⟩
  simp [prove, applyTrace, applyWrite, errEngine, hN, readyStoreN]

/-- Claim C2 (amended): when the engine's distributed proving call returns
an error to the leader (prover index 0) and the required artifacts are
present, `prove` surfaces the error to the caller but still finalizes the
transcript and writes it as the Proof artifact. -/
theorem prove_leader_write_on_failure {t : Ty} (E : Engine t) (H : CircuitHelper t)
    (s : Store t) (gp : t.Params) (pk : t.PK) (t' : t.Transcript) (e : t.Err)
    (h1 : s.paramsKzg H.DEGREE false = some gp) (h2 : s.pks H.NAME = some pk)
    (hres : E.createProofDistributed gp pk [H.circuit] [[]] (E.fromSeed H.RNG_SEED)
      E.transcriptInit H.networkConfig H.workloadConfig 0 = (t', Except.error e)) :
    prove E H 0 s =
      ([WriteEvent.proof H.NAME (E.finalize t')], Except.error (PError.engine e)) := by
  simp [prove, h1, h2, hres, Except.mapError]

/-- Witness for the amended claim C2, at the failing concrete engine. -/
theorem prove_leader_write_on_failure_witness :
    prove errEngine hN 0 readyStoreN =
      ([WriteEvent.proof "c" 1], Except.error (PError.engine ())) :=
  prove_leader_write_on_failure errEngine hN readyStoreN 5 8 1 () rfl rfl rfl

/-- Claim C3: a non-leader `prove` call (prover index ≠ 0) performs no
write to the Artifact Store at all, even on success, and leaves the store
unchanged; and when the required artifacts are present, `prove` writes the
Proof artifact exactly when the prover index is 0. -/
theorem prove_leader_exclusivity {t : Ty} (E : Engine t) (H : CircuitHelper t)
    (prover_index : Nat) (s : Store t) :
    (prover_index ≠ 0 → (prove E H prover_index s).1 = [] ∧
      applyTrace s (prove E H prover_index s).1 = s) ∧
    ((s.paramsKzg H.DEGREE false).isSome → (s.pks H.NAME).isSome →
      ((∃ b, (prove E H prover_index s).1 = [WriteEvent.proof H.NAME b]) ↔
        prover_index = 0)) := by
  cases hgp : s.paramsKzg H.DEGREE false with
  | none =>
    refine ⟨fun hi => by simp [prove, hgp, applyTrace], fun hp => ?_⟩
    simp at hp
  | some gp =>
    cases hpk : s.pks H.NAME with
    | none =>
      refine ⟨fun hi => by simp [prove, hgp, hpk, applyTrace], fun _ hp => ?_⟩
      simp at hp
    | some pk =>
      constructor
      · intro hi
        simp [prove, hgp, hpk, hi, applyTrace]
      · intro _ _
        by_cases hi : prover_index = 0
        · simp [prove, hgp, hpk, hi]
        · simp [prove, hgp, hpk, hi]

/-- Claim C6: if an engine key-generation call (verifying key or proving
key) inside `setup` fails, `setup` terminates the current call with that
engine error propagated — modelling the source's `unwrap()` panic — with no
second engine attempt and no writes. -/
theorem setup_keygen_failure_fatal {t : Ty} (E : Engine t) (H : CircuitHelper t)
    (s : Store t) (e : t.Err)
    (hreq : setup_required H s = true) :
    (E.keygenVk (E.paramsSetup H.DEGREE (E.fromSeed H.RNG_SEED)) H.circuit = Except.error e →
      setup E H s = ([], Except.error e)) ∧
    (∀ vk, E.keygenVk (E.paramsSetup H.DEGREE (E.fromSeed H.RNG_SEED)) H.circuit = Except.ok vk →
      E.keygenPk (E.paramsSetup H.DEGREE (E.fromSeed H.RNG_SEED)) vk H.circuit = Except.error e →
      setup E H s = ([], Except.error e)) := by
  constructor
  · intro hvk
    simp [setup, hreq, hvk]
  · intro vk hvk hpk
    simp [setup, hreq, hvk, hpk]

/-- Witness for claim C6: at a concrete engine with failing key generation
and an empty store, `setup` fails with the engine error and writes nothing. -/
theorem setup_keygen_failure_fatal_witness :
    setup errEngine hN emptyStoreN = ([], Except.error ()) :=
  (setup_keygen_failure_fatal errEngine hN emptyStoreN () rfl).1 rfl

/-- Claim C7: when all required artifacts are present, `verify` returns —
unchanged, with no retry — the engine's verification result on exactly the
verifier-variant parameters, the verifying key, a single-strategy policy
built from the general parameters, the empty public-input set, and a
transcript reconstructed from the stored proof bytes. -/
theorem verify_engine_call_exact {t : Ty} (E : Engine t) (H : CircuitHelper t)
    (s : Store t) (gp vp : t.Params) (vk : t.VK) (pf : t.Bytes)
    (h1 : s.paramsKzg H.DEGREE false = some gp)
    (h2 : s.paramsKzg H.DEGREE true = some vp)
    (h3 : s.vks H.NAME = some vk)
    (h4 : s.proofs H.NAME = some pf) :
    verify E H s = (E.verifyProof vp vk ⟨gp⟩ [[]] ⟨pf⟩).mapError PError.engine := by
  simp [verify, h1, h2, h3, h4]

/-- Witness for claim C7 at a concrete store holding all four artifacts. -/
theorem verify_engine_call_exact_witness :
    verify okEngine hN fullStoreN =
      (okEngine.verifyProof 6 7 ⟨5⟩ [[]] ⟨9⟩).mapError PError.engine :=
  verify_engine_call_exact okEngine hN fullStoreN 5 6 7 9 rfl rfl rfl rfl

/-- Claim C8: `setup` is deterministic — two runs with the same engine,
seed, degree and circuit structure, each starting from a store on which
setup is required, produce identical write sequences (hence byte-identical
parameters, verifying key and proving key) and identical results, whatever
the two prior stores contained. -/
theorem setup_deterministic {t : Ty} (E : Engine t) (H : CircuitHelper t)
    (s1 s2 : Store t)
    (h1 : setup_required H s1 = true) (h2 : setup_required H s2 = true) :
    setup E H s1 = setup E H s2 := by
  simp [setup, h1, h2]

/-- Witness for claim C8: two concrete stores with different contents, both
lacking artifacts, give identical `setup` runs. -/
theorem setup_deterministic_witness :
    setup okEngine hN emptyStoreN = setup okEngine hN vkOnlyStoreN :=
  setup_deterministic okEngine hN emptyStoreN vkOnlyStoreN rfl rfl

/-- Claim C9: calling `prove_local` on a store missing the general
parameters or the proving key fails with the missing-artifact error and
performs no write. -/
theorem prove_local_missing_artifact {t : Ty} (E : Engine t) (H : CircuitHelper t)
    (s : Store t)
    (h : s.paramsKzg H.DEGREE false = none ∨ s.pks H.NAME = none) :
    prove_local E H s = ([], Except.error PError.missingArtifact) := by
  rcases h with h | h
  · simp [prove_local, h]
  · cases hgp : s.paramsKzg H.DEGREE false <;> simp [prove_local, hgp, h]

/-- Witness for claim C9: `prove_local` on the empty store. -/
theorem prove_local_missing_artifact_witness :
    prove_local okEngine hN emptyStoreN = ([], Except.error PError.missingArtifact) :=
  prove_local_missing_artifact okEngine hN emptyStoreN (Or.inl rfl)

/-- Claim C10: the writes and result of `prove_local` depend only on the
stored general parameters and proving key (with the helper's constants):
two runs over stores agreeing on those two entries — in particular two
runs on the same store, or a rerun after a first run, which touches neither
entry — write byte-identical Proof artifacts. -/
theorem prove_local_deterministic {t : Ty} (E : Engine t) (H : CircuitHelper t)
    (s1 s2 : Store t)
    (h1 : s1.paramsKzg H.DEGREE false = s2.paramsKzg H.DEGREE false)
    (h2 : s1.pks H.NAME = s2.pks H.NAME) :
    prove_local E H s1 = prove_local E H s2 := by
  unfold prove_local
  rw [h1, h2]

/-- Witness for claim C10: rerunning `prove_local` after a first run writes
the same proof. -/
theorem prove_local_deterministic_witness :
    prove_local okEngine hN proveTwiceStoreN = prove_local okEngine hN readyStoreN :=
  prove_local_deterministic okEngine hN proveTwiceStoreN readyStoreN rfl rfl

end Zkevm
